import Mathlib

/-!
Verification of the Quantum-Algorithm-Simulator backend (Flask dispatcher in
src/backend/app.py and the per-provider adapter modules).  The Python code is
shallowly embedded: JSON/dict values become typed structures with optional
fields, Python dict access and list indexing get explicit models, each adapter
runner becomes a total Lean function whose external library and network
effects are supplied by an oracle argument, and raised exceptions become an
explicit outcome constructor.
-/

/-- A Python value as stored in a credentials dictionary: a string, an
integer, or Python None (what os.getenv returns when the variable is unset). -/
inductive PyVal where
  | str (s : String)
  | nat (n : Nat)
  | none
deriving Repr, DecidableEq

/-- Python truthiness for the values we store: None, the empty string and 0
are falsy. -/
def PyVal.truthy : PyVal → Bool
  | .none => false
  | .str s => !(s == "")
  | .nat n => !(n == 0)

/-- Reading a PyVal where the code uses it as a string. -/
def PyVal.asStr : PyVal → String
  | .str s => s
  | .nat n => toString n
  | .none => "None"

/-- A Python dict from string keys to values (a credentials bundle). -/
def Creds : Type := List (String × PyVal)

instance : DecidableEq Creds := by unfold Creds; infer_instance
instance : Repr Creds := by unfold Creds; infer_instance
instance : Append Creds := by unfold Creds; infer_instance

/-- Python dict assignment d[k] = v: replace the existing binding or append. -/
def dictInsert (d : Creds) (k : String) (v : PyVal) : Creds :=
  match d with
  | [] => [(k, v)]
  | (k0, v0) :: rest =>
      if k0 == k then (k, v) :: rest else (k0, v0) :: dictInsert rest k v

/-- Python d.get(k): the stored value, or None when the key is absent. -/
def credVal (d : Creds) (k : String) : PyVal :=
  (List.lookup k d).getD .none

/-- Python d.get(k, default) where the caller wants a string. -/
def credStr (d : Creds) (k : String) (dflt : String) : String :=
  match List.lookup k d with
  | some (.str s) => s
  | some v => v.asStr
  | Option.none => dflt

/-- os.getenv wrapped into a PyVal. -/
def pv (o : Option String) : PyVal :=
  match o with
  | some s => .str s
  | Option.none => .none

/-- Python str.lower() on the ASCII gate names (a list-recursive model that
the kernel can evaluate). -/
def pyLower (s : String) : String := String.mk (s.data.map Char.toLower)

/-- One gate object of the incoming circuit JSON.  Fields the adapters read
with gate_info.get(...) or gate_info[...]; an absent key is `none`.  Angle
parameters are modelled as rationals. -/
structure GateInfo where
  gate : String
  target : Option Int := none
  control : Option Int := none
  controls : Option (List Int) := none
  control1 : Option Int := none
  control2 : Option Int := none
  params : Option (List (String × Rat)) := none
  classical_bit : Option Int := none
deriving Repr, DecidableEq

/-- The circuit payload: {"qubits": int, "gates": [...]}. -/
structure CircuitData where
  qubits : Nat
  gates : List GateInfo
deriving Repr, DecidableEq

/-- Python list indexing into a list of length n: indices in [0, n) hit
directly, indices in [-n, 0) wrap around to the end, anything else raises
IndexError (modelled as `none`). -/
def pyIndex (n : Nat) (i : Int) : Option Nat :=
  if 0 ≤ i ∧ i < (n : Int) then some i.toNat
  else if -(n : Int) ≤ i ∧ i < 0 then some ((n : Int) + i).toNat
  else Option.none

/-- Python dict[key] access: KeyError when the key is absent. -/
def keyErr (o : Option α) (k : String) : Except String α :=
  match o with
  | some v => .ok v
  | Option.none => .error ("KeyError: " ++ k)

/-- qubits[i] on cirq.LineQubit.range(n): Python list semantics. -/
def listIndex (n : Nat) (i : Int) : Except String Nat :=
  match pyIndex n i with
  | some j => .ok j
  | Option.none => .error "IndexError: list index out of range"

/-- params.get(key, 0) on the optional params dict (gate_info.get("params", {})). -/
def pget (p : Option (List (String × Rat))) (k : String) : Rat :=
  (List.lookup k (p.getD [])).getD 0

/-- A gate appended to a cirq.Circuit: the qubit arguments are resolved
LineQubit indices. -/
inductive COp where
  | g1 (name : String) (q : Nat)
  | rot1 (name : String) (angle : Rat) (q : Nat)
  | g2 (name : String) (a b : Nat)
  | g3 (name : String) (a b t : Nat)
  | meas (q : Nat) (key : String)
deriving Repr, DecidableEq

/-- One iteration of the gate loop of _build_cirq_circuit
(src/backend/cirq_backend.py lines 13-57).  The target index is read and
resolved before the dispatch on the gate kind, exactly as in the source. -/
def cirqGate (n : Nat) (g : GateInfo) : Except String (List COp) := do
  let gt := pyLower g.gate
  let ti ← keyErr g.target "target"
  let t ← listIndex n ti
  if gt == "h" then .ok [.g1 "H" t]
  else if gt == "x" then .ok [.g1 "X" t]
  else if gt == "y" then .ok [.g1 "Y" t]
  else if gt == "z" then .ok [.g1 "Z" t]
  else if gt == "s" then .ok [.g1 "S" t]
  else if gt == "sdg" then .ok [.g1 "S**-1" t]
  else if gt == "t" then .ok [.g1 "T" t]
  else if gt == "tdg" then .ok [.g1 "T**-1" t]
  else if gt == "rx" then do
    let p ← keyErr g.params "params"
    let th ← keyErr (List.lookup "theta" p) "theta"
    .ok [.rot1 "rx" th t]
  else if gt == "ry" then do
    let p ← keyErr g.params "params"
    let th ← keyErr (List.lookup "theta" p) "theta"
    .ok [.rot1 "ry" th t]
  else if gt == "rz" then do
    let p ← keyErr g.params "params"
    let th ← keyErr (List.lookup "theta" p) "theta"
    .ok [.rot1 "rz" th t]
  else if gt == "cx" then do
    let ci ← keyErr g.control "control"
    let c ← listIndex n ci
    .ok [.g2 "CNOT" c t]
  else if gt == "ccx" then do
    let cs ← keyErr g.controls "controls"
    let rcs ← cs.mapM (listIndex n)
    match rcs with
    | [a, b] => .ok [.g3 "CCNOT" a b t]
    | other =>
        .error ("CCX gate requires exactly 2 control qubits, got " ++
          toString other.length)
  else if gt == "swap" then do
    let ci ← keyErr g.control "control"
    let c ← listIndex n ci
    .ok [.g2 "SWAP" t c]
  else if gt == "measure" then .ok [.meas t ("q" ++ toString ti)]
  else .error ("Unsupported gate type for Cirq: " ++ gt)

/-- The gate loop of _build_cirq_circuit, appending each translated gate. -/
def cirqGates (n : Nat) : List GateInfo → Except String (List COp)
  | [] => .ok []
  | g :: rest => do
      let ops ← cirqGate n g
      let more ← cirqGates n rest
      .ok (ops ++ more)

/-- _build_cirq_circuit (src/backend/cirq_backend.py): translate the circuit
data into a list of cirq operations over LineQubit.range(qubits). -/
def _build_cirq_circuit (cd : CircuitData) : Except String (List COp) :=
  cirqGates cd.qubits cd.gates

/-- A gate appended to a qiskit QuantumCircuit (aer / ibm / quantinuum
adapters): qubit arguments are resolved indices. -/
inductive QOp where
  | g1 (name : String) (q : Nat)
  | rot1 (name : String) (angle : Rat) (q : Nat)
  | u3 (theta phi lam : Rat) (q : Nat)
  | g2 (name : String) (c t : Nat)
  | crot (name : String) (angle : Rat) (c t : Nat)
  | cu4 (theta phi lam gamma : Rat) (c t : Nat)
  | g3 (name : String) (c1 c2 t : Nat)
  | meas (q c : Nat)
deriving Repr, DecidableEq

/-- qiskit resolution of an integer qubit index against an n-qubit register:
Python sequence conventions (negative indices wrap), CircuitError otherwise. -/
def qresI (n : Nat) (i : Int) : Except String Nat :=
  match pyIndex n i with
  | some j => .ok j
  | Option.none => .error "CircuitError: qubit index out of range"

/-- qiskit resolution of a qubit argument that may be Python None
(gate_info.get returned nothing). -/
def qres (n : Nat) (o : Option Int) : Except String Nat :=
  match o with
  | some i => qresI n i
  | Option.none => .error "CircuitError: qubit specifier is None"

/-- One iteration of the gate loop of _build_qiskit_circuit_aer
(src/backend/aer_backend.py lines 18-96).  The isinstance checks on
target/control hold by typing.  The Bool records whether this gate was an
explicit measurement; an unknown gate kind prints a warning and is skipped
(it contributes no operation and no error). -/
def aerStep (n : Nat) (g : GateInfo) : Except String (List QOp × Bool) := do
  let gt := pyLower g.gate
  if gt == "h" then
    let t ← qres n g.target
    .ok ([.g1 "h" t], false)
  else if gt == "x" then
    let t ← qres n g.target
    .ok ([.g1 "x" t], false)
  else if gt == "y" then
    let t ← qres n g.target
    .ok ([.g1 "y" t], false)
  else if gt == "z" then
    let t ← qres n g.target
    .ok ([.g1 "z" t], false)
  else if gt == "s" then
    let t ← qres n g.target
    .ok ([.g1 "s" t], false)
  else if gt == "sdg" then
    let t ← qres n g.target
    .ok ([.g1 "sdg" t], false)
  else if gt == "t" then
    let t ← qres n g.target
    .ok ([.g1 "t" t], false)
  else if gt == "tdg" then
    let t ← qres n g.target
    .ok ([.g1 "tdg" t], false)
  else if gt == "rx" then
    let t ← qres n g.target
    .ok ([.rot1 "rx" (pget g.params "theta") t], false)
  else if gt == "ry" then
    let t ← qres n g.target
    .ok ([.rot1 "ry" (pget g.params "theta") t], false)
  else if gt == "rz" then
    let t ← qres n g.target
    .ok ([.rot1 "rz" (pget g.params "theta") t], false)
  else if gt == "p" then
    let t ← qres n g.target
    .ok ([.rot1 "p" (pget g.params "theta") t], false)
  else if gt == "u" then
    let t ← qres n g.target
    .ok ([.u3 (pget g.params "theta") (pget g.params "phi") (pget g.params "lambda") t], false)
  else if gt == "cx" then
    let c ← qres n g.control
    let t ← qres n g.target
    .ok ([.g2 "cx" c t], false)
  else if gt == "cy" then
    let c ← qres n g.control
    let t ← qres n g.target
    .ok ([.g2 "cy" c t], false)
  else if gt == "cz" then
    let c ← qres n g.control
    let t ← qres n g.target
    .ok ([.g2 "cz" c t], false)
  else if gt == "swap" then
    let c ← qres n g.control
    let t ← qres n g.target
    .ok ([.g2 "swap" c t], false)
  else if gt == "crx" then
    let c ← qres n g.control
    let t ← qres n g.target
    .ok ([.crot "crx" (pget g.params "theta") c t], false)
  else if gt == "cry" then
    let c ← qres n g.control
    let t ← qres n g.target
    .ok ([.crot "cry" (pget g.params "theta") c t], false)
  else if gt == "crz" then
    let c ← qres n g.control
    let t ← qres n g.target
    .ok ([.crot "crz" (pget g.params "theta") c t], false)
  else if gt == "cu" then
    let c ← qres n g.control
    let t ← qres n g.target
    .ok ([.cu4 (pget g.params "theta") (pget g.params "phi") (pget g.params "lambda")
      (pget g.params "gamma") c t], false)
  else if gt == "ccx" then
    match g.control1, g.control2 with
    | some c1, some c2 =>
      let rc1 ← qresI n c1
      let rc2 ← qresI n c2
      let t ← qres n g.target
      .ok ([.g3 "ccx" rc1 rc2 t], false)
    | _, _ =>
      .error ("Both control1 and control2 must be specified for " ++ gt ++ " gate.")
  else if gt == "measure" then
    -- classical_bit = gate_info.get("classical_bit", target); the extra
    -- "if classical_bit is None: classical_bit = target" is a no-op
    let cb := match g.classical_bit with
      | some v => some v
      | Option.none => g.target
    let t ← qres n g.target
    let c ← qres n cb
    .ok ([.meas t c], true)
  else
    -- print a warning and skip the gate
    .ok ([], false)

/-- The gate loop of _build_qiskit_circuit_aer: accumulates operations and
whether an explicit measurement was seen. -/
def aerGates (n : Nat) : List GateInfo → Except String (List QOp × Bool)
  | [] => .ok ([], false)
  | g :: rest => do
      let (ops, m) ← aerStep n g
      let (more, m2) ← aerGates n rest
      .ok (ops ++ more, m || m2)

/-- _build_qiskit_circuit_aer (src/backend/aer_backend.py): builds the qiskit
circuit and reports whether explicit measurement gates were found. -/
def _build_qiskit_circuit_aer (cd : CircuitData) : Except String (List QOp × Bool) :=
  aerGates cd.qubits cd.gates

/-- One iteration of the inline gate loop of run_ibm
(src/backend/ibm_backend.py lines 49-93): .get-based field access, angle
defaults 0, unknown kinds print a warning and are skipped. -/
def ibmStep (n : Nat) (g : GateInfo) : Except String (List QOp) := do
  let gt := pyLower g.gate
  if gt == "h" then
    let t ← qres n g.target
    .ok [.g1 "h" t]
  else if gt == "x" then
    let t ← qres n g.target
    .ok [.g1 "x" t]
  else if gt == "y" then
    let t ← qres n g.target
    .ok [.g1 "y" t]
  else if gt == "z" then
    let t ← qres n g.target
    .ok [.g1 "z" t]
  else if gt == "s" then
    let t ← qres n g.target
    .ok [.g1 "s" t]
  else if gt == "sdg" then
    let t ← qres n g.target
    .ok [.g1 "sdg" t]
  else if gt == "t" then
    let t ← qres n g.target
    .ok [.g1 "t" t]
  else if gt == "tdg" then
    let t ← qres n g.target
    .ok [.g1 "tdg" t]
  else if gt == "rx" then
    let t ← qres n g.target
    .ok [.rot1 "rx" (pget g.params "theta") t]
  else if gt == "ry" then
    let t ← qres n g.target
    .ok [.rot1 "ry" (pget g.params "theta") t]
  else if gt == "rz" then
    let t ← qres n g.target
    .ok [.rot1 "rz" (pget g.params "theta") t]
  else if gt == "cx" then
    let c ← qres n g.control
    let t ← qres n g.target
    .ok [.g2 "cx" c t]
  else if gt == "ccx" then
    -- "if controls and len(controls) == 2": truthiness plus length
    match g.controls with
    | some [a, b] =>
      let c1 ← qresI n a
      let c2 ← qresI n b
      let t ← qres n g.target
      .ok [.g3 "ccx" c1 c2 t]
    | _ => .error "CCX gate requires exactly 2 control qubits."
  else if gt == "swap" then
    let t ← qres n g.target
    let c ← qres n g.control
    .ok [.g2 "swap" t c]
  else if gt == "measure" then
    -- classical-register bookkeeping is abstracted; measure target into the
    -- classical bit of the same index
    let t ← qres n g.target
    .ok [.meas t t]
  else
    -- print a warning and skip the gate
    .ok []

/-- The inline gate loop of run_ibm over the whole gate list. -/
def ibmGates (n : Nat) : List GateInfo → Except String (List QOp)
  | [] => .ok []
  | g :: rest => do
      let ops ← ibmStep n g
      let more ← ibmGates n rest
      .ok (ops ++ more)

/-- The circuit-construction part of run_ibm (src/backend/ibm_backend.py
lines 48-93). -/
def ibmBuildCircuit (cd : CircuitData) : Except String (List QOp) :=
  ibmGates cd.qubits cd.gates

/-- One iteration of the gate loop of _build_qiskit_circuit_quantinuum
(src/backend/quantinuum_backend.py lines 13-51): bracket-access to target,
control, controls and params (KeyError when absent), angles are required. -/
def quantinuumStep (n : Nat) (g : GateInfo) : Except String (List QOp) := do
  let gt := pyLower g.gate
  if gt == "h" then
    let ti ← keyErr g.target "target"
    let t ← qresI n ti
    .ok [.g1 "h" t]
  else if gt == "x" then
    let ti ← keyErr g.target "target"
    let t ← qresI n ti
    .ok [.g1 "x" t]
  else if gt == "y" then
    let ti ← keyErr g.target "target"
    let t ← qresI n ti
    .ok [.g1 "y" t]
  else if gt == "z" then
    let ti ← keyErr g.target "target"
    let t ← qresI n ti
    .ok [.g1 "z" t]
  else if gt == "s" then
    let ti ← keyErr g.target "target"
    let t ← qresI n ti
    .ok [.g1 "s" t]
  else if gt == "sdg" then
    let ti ← keyErr g.target "target"
    let t ← qresI n ti
    .ok [.g1 "sdg" t]
  else if gt == "t" then
    let ti ← keyErr g.target "target"
    let t ← qresI n ti
    .ok [.g1 "t" t]
  else if gt == "tdg" then
    let ti ← keyErr g.target "target"
    let t ← qresI n ti
    .ok [.g1 "tdg" t]
  else if gt == "rx" then
    let ps ← keyErr g.params "params"
    let th ← keyErr (List.lookup "theta" ps) "theta"
    let ti ← keyErr g.target "target"
    let t ← qresI n ti
    .ok [.rot1 "rx" th t]
  else if gt == "ry" then
    let ps ← keyErr g.params "params"
    let th ← keyErr (List.lookup "theta" ps) "theta"
    let ti ← keyErr g.target "target"
    let t ← qresI n ti
    .ok [.rot1 "ry" th t]
  else if gt == "rz" then
    let ps ← keyErr g.params "params"
    let th ← keyErr (List.lookup "theta" ps) "theta"
    let ti ← keyErr g.target "target"
    let t ← qresI n ti
    .ok [.rot1 "rz" th t]
  else if gt == "cx" then
    let ci ← keyErr g.control "control"
    let c ← qresI n ci
    let ti ← keyErr g.target "target"
    let t ← qresI n ti
    .ok [.g2 "cx" c t]
  else if gt == "ccx" then
    let cs ← keyErr g.controls "controls"
    if cs.length == 2 then do
      let c1 ← qresI n (cs.getD 0 0)
      let c2 ← qresI n (cs.getD 1 0)
      let ti ← keyErr g.target "target"
      let t ← qresI n ti
      .ok [.g3 "ccx" c1 c2 t]
    else
      .error ("CCX gate requires exactly 2 control qubits, got " ++ toString cs.length)
  else if gt == "swap" then
    let ti ← keyErr g.target "target"
    let t ← qresI n ti
    let ci ← keyErr g.control "control"
    let c ← qresI n ci
    .ok [.g2 "swap" t c]
  else if gt == "measure" then
    let ti ← keyErr g.target "target"
    let t ← qresI n ti
    .ok [.meas t t]
  else
    .error ("Unsupported gate type for Quantinuum (Azure Quantum): " ++ gt)

/-- The gate loop of _build_qiskit_circuit_quantinuum. -/
def quantinuumGates (n : Nat) : List GateInfo → Except String (List QOp)
  | [] => .ok []
  | g :: rest => do
      let ops ← quantinuumStep n g
      let more ← quantinuumGates n rest
      .ok (ops ++ more)

/-- _build_qiskit_circuit_quantinuum (src/backend/quantinuum_backend.py). -/
def _build_qiskit_circuit_quantinuum (cd : CircuitData) : Except String (List QOp) :=
  quantinuumGates cd.qubits cd.gates

/-- A gate appended to an Amazon Braket Circuit (ionq / rigetti adapters):
Braket keeps raw integer qubit labels, no register to resolve against. -/
inductive BOp where
  | g1 (name : String) (q : Int)
  | rot1 (name : String) (q : Int) (angle : Rat)
  | g2 (name : String) (a b : Int)
  | g3 (name : String) (a b t : Int)
deriving Repr, DecidableEq

/-- A Braket result type attached to a circuit (never attached by these
builders, so a built circuit always carries the empty list). -/
inductive BrRT where
  | stateVector
deriving Repr, DecidableEq

/-- An Amazon Braket Circuit: operations plus requested result types. -/
structure BraketCircuit where
  ops : List BOp
  result_types : List BrRT := []
deriving Repr, DecidableEq

/-- Passing Python None where Braket expects a qubit raises. -/
def braketQ (o : Option Int) : Except String Int :=
  match o with
  | some i => .ok i
  | Option.none => .error "TypeError: qubit specifier is None"

/-- One iteration of the shared Braket gate loop (src/backend/ionq_backend.py
lines 12-54 and src/backend/rigetti_backend.py lines 17-58; the two loops
are identical except for the provider named in the unsupported-gate
message).  target is bracket-accessed, control/controls with .get, params
with .get defaulting to the empty dict. -/
def braketStep (provLabel : String) (g : GateInfo) : Except String (List BOp) := do
  let gt := pyLower g.gate
  let target ← keyErr g.target "target"
  if gt == "h" then .ok [.g1 "h" target]
  else if gt == "x" then .ok [.g1 "x" target]
  else if gt == "y" then .ok [.g1 "y" target]
  else if gt == "z" then .ok [.g1 "z" target]
  else if gt == "s" then .ok [.g1 "s" target]
  else if gt == "sdg" then .ok [.g1 "sdg" target]
  else if gt == "t" then .ok [.g1 "t" target]
  else if gt == "tdg" then .ok [.g1 "tdg" target]
  else if gt == "rx" then .ok [.rot1 "rx" target (pget g.params "theta")]
  else if gt == "ry" then .ok [.rot1 "ry" target (pget g.params "theta")]
  else if gt == "rz" then .ok [.rot1 "rz" target (pget g.params "theta")]
  else if gt == "cx" then
    let c ← braketQ g.control
    .ok [.g2 "cnot" c target]
  else if gt == "ccx" then
    -- "if controls and len(controls) == 2"
    match g.controls with
    | some [a, b] => .ok [.g3 "ccnot" a b target]
    | _ => .error "CCX gate requires exactly 2 control qubits."
  else if gt == "swap" then
    let c ← braketQ g.control
    .ok [.g2 "swap" target c]
  else if gt == "measure" then
    -- measurement is handled by results, not by adding a gate
    .ok []
  else
    .error ("Unsupported gate type for " ++ provLabel ++ ": " ++ gt)

/-- The Braket gate loop over the whole gate list. -/
def braketGates (provLabel : String) : List GateInfo → Except String (List BOp)
  | [] => .ok []
  | g :: rest => do
      let ops ← braketStep provLabel g
      let more ← braketGates provLabel rest
      .ok (ops ++ more)

/-- _build_braket_circuit (src/backend/ionq_backend.py). -/
def _build_braket_circuit (cd : CircuitData) : Except String BraketCircuit :=
  (braketGates "IonQ (Braket)" cd.gates).map (fun l => { ops := l })

/-- _build_braket_circuit_rigetti (src/backend/rigetti_backend.py). -/
def _build_braket_circuit_rigetti (cd : CircuitData) : Except String BraketCircuit :=
  (braketGates "Rigetti (Braket)" cd.gates).map (fun l => { ops := l })

/-- A gate recorded by the PennyLane QNode body: wires are raw labels, an
absent control is passed through as Python None (PennyLane accepts any
hashable wire label at op construction). -/
inductive POp where
  | g1 (name : String) (q : Int)
  | rot1 (name : String) (angle : Rat) (q : Int)
  | g2 (name : String) (a : Option Int) (b : Option Int)
  | g3 (name : String) (a b t : Int)
deriving Repr, DecidableEq

/-- One iteration of the gate loop inside _build_pennylane_circuit
(src/backend/pennylane_backend.py lines 12-53): target is bracket-accessed,
control/controls via .get, angle parameters default to 0. -/
def pennyStep (g : GateInfo) : Except String (List POp) := do
  let gt := pyLower g.gate
  let target ← keyErr g.target "target"
  if gt == "h" then .ok [.g1 "Hadamard" target]
  else if gt == "x" then .ok [.g1 "PauliX" target]
  else if gt == "y" then .ok [.g1 "PauliY" target]
  else if gt == "z" then .ok [.g1 "PauliZ" target]
  else if gt == "s" then .ok [.g1 "S" target]
  else if gt == "sdg" then .ok [.g1 "Adjoint(S)" target]
  else if gt == "t" then .ok [.g1 "T" target]
  else if gt == "tdg" then .ok [.g1 "Adjoint(T)" target]
  else if gt == "rx" then .ok [.rot1 "RX" (pget g.params "theta") target]
  else if gt == "ry" then .ok [.rot1 "RY" (pget g.params "theta") target]
  else if gt == "rz" then .ok [.rot1 "RZ" (pget g.params "theta") target]
  else if gt == "cx" then .ok [.g2 "CNOT" g.control (some target)]
  else if gt == "ccx" then
    match g.controls with
    | some [a, b] => .ok [.g3 "Toffoli" a b target]
    | _ => .error "CCX gate requires exactly 2 control qubits."
  else if gt == "swap" then .ok [.g2 "SWAP" (some target) g.control]
  else if gt == "measure" then .ok []
  else .error ("Unsupported gate type for PennyLane: " ++ gt)

/-- The PennyLane gate loop over the whole gate list. -/
def pennyGates : List GateInfo → Except String (List POp)
  | [] => .ok []
  | g :: rest => do
      let ops ← pennyStep g
      let more ← pennyGates rest
      .ok (ops ++ more)

/-- _build_pennylane_circuit (src/backend/pennylane_backend.py): the gate
sequence the QNode body applies when executed. -/
def _build_pennylane_circuit (cd : CircuitData) : Except String (List POp) :=
  pennyGates cd.gates

/-- A complex amplitude, as a pair of rationals (re, im). -/
def Amp : Type := Rat × Rat

instance : DecidableEq Amp := by unfold Amp; infer_instance
instance : Repr Amp := by unfold Amp; infer_instance

/-- abs(amp)**2. -/
def normSq (a : Amp) : Rat := a.1 * a.1 + a.2 * a.2

/-- Python format(i, "0{w}b"): binary, zero-padded on the left to width w. -/
def padBin (w i : Nat) : String :=
  let s := (Nat.toDigits 2 i).asString
  String.mk (List.replicate (w - s.length) '0') ++ s

/-- The probabilities dict derived from a statevector:
bitstring(i) mapsto abs(amplitude_i)**2. -/
def probsOf (q : Nat) (amps : List Amp) : List (String × Rat) :=
  amps.enum.map (fun p => (padBin q p.1, normSq p.2))

/-- The dict a runner function returns: either a result payload or an error
payload; an absent key is `none`.  backend_used is set by every return
statement of every runner. -/
structure ResultDict where
  backend_used : String
  error : Option String := none
  num_qubits : Option Nat := none
  counts : Option (List (String × Nat)) := none
  statevector : Option (List Amp) := none
  probabilities : Option (List (String × Rat)) := none
deriving Repr, DecidableEq

/-- Outcome of calling a Python function: a returned value or a raised
exception (isValueError distinguishes ValueError from other exceptions,
which is what the dispatcher's except clauses discriminate on). -/
inductive PyOutcome (α : Type) where
  | ret (a : α)
  | raise (isValueError : Bool) (msg : String)
deriving Repr, DecidableEq

/-- External effects of run_aer: what qiskit.execute produces in each of the
two simulator branches, or the exception message if execution fails. -/
structure AerOracle where
  qasmCounts : List (String × Nat)
  qasmErr : Option String
  svAmps : List Amp
  svErr : Option String
deriving Repr, DecidableEq

/-- run_aer (src/backend/aer_backend.py lines 100-155).  The whole body is
inside try/except, so the function always returns a dict.  The simulator is
chosen by the simulator_choice credential; when no explicit measurement was
found the qasm branch appends measure-all before executing (which does not
change the shape of the returned dict). -/
def run_aer (cd : CircuitData) (credentials : Creds) (o : AerOracle) : PyOutcome ResultDict :=
  .ret <|
    match _build_qiskit_circuit_aer cd with
    | .error e => { error := some e, backend_used := credStr credentials "backend_name" "N/A" }
    | .ok (_ops, _hasMeas) =>
      let backend_name := credStr credentials "simulator_choice" "qasm_simulator"
      let _shots := credVal credentials "shots"
      if backend_name == "aer_qasm_simulator" then
        match o.qasmErr with
        | some e => { error := some e, backend_used := credStr credentials "backend_name" "N/A" }
        | Option.none =>
          { backend_used := "Aer QASM Simulator", num_qubits := some cd.qubits,
            counts := some o.qasmCounts, statevector := none, probabilities := none }
      else if backend_name == "aer_statevector_simulator" then
        match o.svErr with
        | some e => { error := some e, backend_used := credStr credentials "backend_name" "N/A" }
        | Option.none =>
          { backend_used := "Aer Statevector Simulator", num_qubits := some cd.qubits,
            counts := none, statevector := some o.svAmps,
            probabilities := some (probsOf cd.qubits o.svAmps) }
      else
        { error := some ("Unsupported Aer simulator: " ++ backend_name),
          backend_used := credStr credentials "backend_name" "N/A" }

/-- External effects of run_cirq: the processed histogram counts of
simulator.run, the final state vector of simulator.simulate, and their
possible exception messages. -/
structure CirqOracle where
  runCounts : List (String × Nat)
  runErr : Option String
  simAmps : List Amp
  simErr : Option String
deriving Repr, DecidableEq

/-- run_cirq (src/backend/cirq_backend.py lines 60-144).  The body is inside
try/except Exception, so it always returns a dict.  In the
has-measurements branch the statevector/probabilities assignments are
guarded by "if not has_measurements" and therefore stay None there. -/
def run_cirq (cd : CircuitData) (credentials : Creds) (o : CirqOracle) : PyOutcome ResultDict :=
  let _shots := credVal credentials "shots"
  .ret <|
    match _build_cirq_circuit cd with
    | .error e => { error := some e, backend_used := "Cirq Local Simulator" }
    | .ok _ops =>
      let hasMeas := cd.gates.any (fun g => pyLower g.gate == "measure")
      if hasMeas then
        match o.runErr with
        | some e => { error := some e, backend_used := "Cirq Local Simulator" }
        | Option.none =>
          { backend_used := "Cirq Local Simulator", num_qubits := some cd.qubits,
            counts := if hasMeas then some o.runCounts else none,
            statevector := if hasMeas then none else some o.simAmps,
            probabilities := if hasMeas then none else some (probsOf cd.qubits o.simAmps) }
      else
        match o.simErr with
        | some e => { error := some e, backend_used := "Cirq Local Simulator" }
        | Option.none =>
          { backend_used := "Cirq Local Simulator (Statevector)", num_qubits := some cd.qubits,
            counts := none, statevector := some o.simAmps,
            probabilities := some (probsOf cd.qubits o.simAmps) }

/-- External effects of run_ionq: per-branch Braket device behaviour. -/
structure IonqOracle where
  localCounts : List (String × Nat)
  localErr : Option String
  sv1Counts : List (String × Nat)
  sv1Amps : List Amp
  sv1Err : Option String
  qpuDeviceErr : Option String
  qpuCounts : List (String × Nat)
  qpuErr : Option String
deriving Repr, DecidableEq

/-- run_ionq (src/backend/ionq_backend.py lines 57-154).  The backend-name
check sits before the try block, so a missing/falsy backend name raises a
ValueError out of the function; every other failure is caught and wrapped
into an error dict. -/
def run_ionq (cd : CircuitData) (credentials : Creds) (o : IonqOracle) : PyOutcome ResultDict :=
  let ak := credVal credentials "AWS_ACCESS_KEY_ID"
  let sk := credVal credentials "AWS_SECRET_ACCESS_KEY"
  let rg := credVal credentials "AWS_REGION"
  let bnv := credVal credentials "backend_name"
  let _shots := credVal credentials "shots"
  if !bnv.truthy then
    .raise true "IonQ backend name (e.g., \'ionq/qpu\' or \'local\') not specified."
  else
    let backend_name := bnv.asStr
    .ret <|
      match _build_braket_circuit cd with
      | .error e => { error := some e, backend_used := backend_name }
      | .ok circuit =>
        if backend_name == "local" then
          match o.localErr with
          | some e => { error := some e, backend_used := backend_name }
          | Option.none =>
            { backend_used := "AWS Braket Local Simulator", num_qubits := some cd.qubits,
              counts := some o.localCounts, statevector := none, probabilities := none }
        else if backend_name == "sv1" then
          match o.sv1Err with
          | some e => { error := some e, backend_used := backend_name }
          | Option.none =>
            { backend_used := "AWS Braket SV1 Simulator", num_qubits := some cd.qubits,
              counts := some o.sv1Counts,
              statevector :=
                if circuit.result_types.contains BrRT.stateVector then some o.sv1Amps else none,
              probabilities :=
                if circuit.result_types.contains BrRT.stateVector
                then some (probsOf cd.qubits o.sv1Amps) else none }
        else if backend_name == "ionq/qpu" then
          if !(ak.truthy && sk.truthy && rg.truthy) then
            { error := some "AWS credentials (AWS_ACCESS_KEY_ID, AWS_SECRET_ACCESS_KEY, AWS_REGION) are required for IonQ QPU.",
              backend_used := backend_name }
          else
            match o.qpuDeviceErr with
            | some e =>
              { error := some ("AWS Braket connection or IonQ QPU access failed. Please check your AWS credentials and region. Error: " ++ e),
                backend_used := backend_name }
            | Option.none =>
              match o.qpuErr with
              | some e =>
                { error := some ("Failed to execute circuit on IonQ QPU: " ++ e),
                  backend_used := backend_name }
              | Option.none =>
                { backend_used := "IonQ QPU (via AWS Braket)", num_qubits := some cd.qubits,
                  counts := some o.qpuCounts, statevector := none, probabilities := none }
        else
          { error := some ("Unsupported IonQ backend: " ++ backend_name),
            backend_used := backend_name }

/-- External effects of run_rigetti. -/
structure RigettiOracle where
  localCounts : List (String × Nat)
  localErr : Option String
  qpuDeviceErr : Option String
  qpuCounts : List (String × Nat)
  qpuErr : Option String
deriving Repr, DecidableEq

/-- run_rigetti (src/backend/rigetti_backend.py lines 61-135): same shape as
run_ionq, again with the backend-name check before the try block. -/
def run_rigetti (cd : CircuitData) (credentials : Creds) (o : RigettiOracle) : PyOutcome ResultDict :=
  let ak := credVal credentials "AWS_ACCESS_KEY_ID"
  let sk := credVal credentials "AWS_SECRET_ACCESS_KEY"
  let rg := credVal credentials "AWS_REGION"
  let bnv := credVal credentials "backend_name"
  let _shots := credVal credentials "shots"
  if !bnv.truthy then
    .raise true "Rigetti backend name (e.g., \'rigetti/qpu\' or \'local\') not specified."
  else
    let backend_name := bnv.asStr
    .ret <|
      match _build_braket_circuit_rigetti cd with
      | .error e => { error := some e, backend_used := backend_name }
      | .ok _circuit =>
        if backend_name == "local" then
          match o.localErr with
          | some e => { error := some e, backend_used := backend_name }
          | Option.none =>
            { backend_used := "AWS Braket Local Simulator (Rigetti context)",
              num_qubits := some cd.qubits,
              counts := some o.localCounts, statevector := none, probabilities := none }
        else if backend_name == "rigetti/qpu" then
          if !(ak.truthy && sk.truthy && rg.truthy) then
            { error := some "AWS credentials (AWS_ACCESS_KEY_ID, AWS_SECRET_ACCESS_KEY, AWS_REGION) are required for Rigetti QPU.",
              backend_used := backend_name }
          else
            let arn := "arn:aws:braket:" ++ rg.asStr ++ "::device/qpu/rigetti/Aspen-M-3"
            match o.qpuDeviceErr with
            | some e =>
              { error := some ("AWS Braket connection or Rigetti QPU access failed. Please check your AWS credentials, region, and QPU ARN. Error: " ++ e),
                backend_used := backend_name }
            | Option.none =>
              match o.qpuErr with
              | some e =>
                { error := some ("Failed to execute circuit on Rigetti QPU: " ++ e),
                  backend_used := backend_name }
              | Option.none =>
                { backend_used := "Rigetti QPU (via AWS Braket): " ++ arn,
                  num_qubits := some cd.qubits,
                  counts := some o.qpuCounts, statevector := none, probabilities := none }
        else
          { error := some ("Unsupported Rigetti backend: " ++ backend_name),
            backend_used := backend_name }

/-- External effects of run_ibm: service/backend acquisition failures (the
latter already wrapped into the ValueError message the source composes) and
the sampler run. -/
structure IbmOracle where
  serviceErr : Option String
  backendErr : Option String
  runCounts : List (String × Nat)
  runErr : Option String
deriving Repr, DecidableEq

/-- run_ibm (src/backend/ibm_backend.py lines 13-125).  The whole body is in
try/except (both except arms return an error dict), so it always returns. -/
def run_ibm (cd : CircuitData) (credentials : Creds) (o : IbmOracle) : PyOutcome ResultDict :=
  let token := credVal credentials "IBMQ_TOKEN"
  let backend_name := credStr credentials "backend_name" "ibm_qasm_simulator"
  let _shots := credVal credentials "shots"
  .ret <|
    if !token.truthy then
      { error := some "IBMQ_TOKEN is missing. Please provide your IBM Quantum Experience Token.",
        backend_used := backend_name }
    else
      match o.serviceErr with
      | some e => { error := some e, backend_used := backend_name }
      | Option.none =>
        match o.backendErr with
        | some e => { error := some e, backend_used := backend_name }
        | Option.none =>
          match ibmBuildCircuit cd with
          | .error e => { error := some e, backend_used := backend_name }
          | .ok _ops =>
            match o.runErr with
            | some e => { error := some e, backend_used := backend_name }
            | Option.none =>
              { backend_used := backend_name, num_qubits := some cd.qubits,
                counts := some o.runCounts, statevector := none, probabilities := none }

/-- External effects of run_pennylane: plugin import, remote device
initialization, sampling and statevector evaluation. -/
structure PennyOracle where
  lightningImportErr : Bool
  remoteDevErr : Option String
  sampleCounts : List (String × Nat)
  sampleErr : Option String
  stateAmps : List Amp
  stateErr : Option String
deriving Repr, DecidableEq

/-- Executing the PennyLane QNode and normalizing its output
(src/backend/pennylane_backend.py lines 108-149): building the circuit
happens when the QNode is called, inside the try block. -/
def pennyRun (cd : CircuitData) (o : PennyOracle) (backend_name : String) : ResultDict :=
  match _build_pennylane_circuit cd with
  | .error e => { error := some e, backend_used := backend_name }
  | .ok _ops =>
    let hasMeas := cd.gates.any (fun g => pyLower g.gate == "measure")
    if hasMeas then
      match o.sampleErr with
      | some e => { error := some e, backend_used := backend_name }
      | Option.none =>
        { backend_used := "PennyLane " ++ backend_name ++ " Simulator",
          num_qubits := some cd.qubits,
          counts := some o.sampleCounts, statevector := none, probabilities := none }
    else
      match o.stateErr with
      | some e => { error := some e, backend_used := backend_name }
      | Option.none =>
        { backend_used := "PennyLane " ++ backend_name ++ " Simulator (Statevector)",
          num_qubits := some cd.qubits,
          counts := none, statevector := some o.stateAmps,
          probabilities := some (probsOf cd.qubits o.stateAmps) }

/-- run_pennylane (src/backend/pennylane_backend.py lines 63-156).  All
failure modes (ImportError, ValueError, Exception) are caught and returned
as error dicts, so the function always returns. -/
def run_pennylane (cd : CircuitData) (credentials : Creds) (o : PennyOracle) : PyOutcome ResultDict :=
  let backend_name := credStr credentials "backend_name" "default.qubit"
  let _shots := credVal credentials "shots"
  let apiKey := credVal credentials "PENNYLANE_API_KEY"
  .ret <|
    if backend_name == "default.qubit" then pennyRun cd o backend_name
    else if backend_name == "lightning.qubit" then
      if o.lightningImportErr then
        { error := some ("PennyLane backend \'" ++ backend_name ++ "\' requires its corresponding plugin (e.g., pennylane-lightning for lightning.qubit). Please install it."),
          backend_used := backend_name }
      else pennyRun cd o backend_name
    else
      if apiKey.truthy then
        match o.remoteDevErr with
        | some e =>
          { error := some ("Failed to initialize PennyLane device \'" ++ backend_name ++ "\' with provided API key. Error: " ++ e),
            backend_used := backend_name }
        | Option.none => pennyRun cd o backend_name
      else
        { error := some ("Unsupported PennyLane backend \'" ++ backend_name ++ "\' or missing PENNYLANE_API_KEY for a remote backend."),
          backend_used := backend_name }

/-- Which runner function a BACKEND_MAP entry points at. -/
inductive RunnerId where
  | ibm | ionq | rigetti | cirq | pennylane | aer
deriving Repr, DecidableEq

/-- One BACKEND_MAP entry (src/backend/app.py lines 41-65). -/
structure BackendInfo where
  provider : String
  runner : RunnerId
  backend_name : String
  provider_type : String
deriving Repr, DecidableEq

/-- BACKEND_MAP (src/backend/app.py lines 41-65). -/
def BACKEND_MAP : List (String × BackendInfo) := [
  ("ibm_qasm_simulator", ⟨"ibm", .ibm, "ibm_qasm_simulator", "simulator"⟩),
  ("ibm_brisbane", ⟨"ibm", .ibm, "ibm_brisbane", "qpu"⟩),
  ("ibm_osprey", ⟨"ibm", .ibm, "ibm_osprey", "qpu"⟩),
  ("aws_ionq", ⟨"ionq", .ionq, "ionq/qpu", "qpu"⟩),
  ("aws_sv1", ⟨"ionq", .ionq, "sv1", "simulator"⟩),
  ("aws_local", ⟨"ionq", .ionq, "local", "simulator"⟩),
  ("aws_rigetti", ⟨"rigetti", .rigetti, "rigetti/qpu", "qpu"⟩),
  ("google_cirq", ⟨"cirq", .cirq, "cirq_simulator", "simulator"⟩),
  ("pennylane_default", ⟨"pennylane", .pennylane, "default.qubit", "simulator"⟩),
  ("pennylane_lightning", ⟨"pennylane", .pennylane, "lightning.qubit", "simulator"⟩),
  ("aer_qasm_simulator", ⟨"aer", .aer, "aer_qasm_simulator", "simulator"⟩),
  ("aer_statevector_simulator", ⟨"aer", .aer, "aer_statevector_simulator", "simulator"⟩)]

/-- All external effects of one request: one oracle per runner family. -/
structure Oracle where
  ibm : IbmOracle
  ionq : IonqOracle
  rigetti : RigettiOracle
  cirq : CirqOracle
  pennylane : PennyOracle
  aer : AerOracle
deriving Repr, DecidableEq

/-- Invoking the runner function a BACKEND_MAP entry names. -/
def execRunner (o : Oracle) : RunnerId → CircuitData → Creds → PyOutcome ResultDict
  | .ibm, cd, c => run_ibm cd c o.ibm
  | .ionq, cd, c => run_ionq cd c o.ionq
  | .rigetti, cd, c => run_rigetti cd c o.rigetti
  | .cirq, cd, c => run_cirq cd c o.cirq
  | .pennylane, cd, c => run_pennylane cd c o.pennylane
  | .aer, cd, c => run_aer cd c o.aer

/-- _get_credentials_for_provider (src/backend/app.py lines 73-97): prefer
the in-memory store (returning a copy, which a pure value model makes a
no-op), otherwise build a bundle from environment variables. -/
def _get_credentials_for_provider (store : List (String × Creds))
    (env : String → Option String) (provider_key : String) : Creds :=
  match List.lookup provider_key store with
  | some c => c
  | Option.none =>
    if provider_key == "ibm" then
      [("IBMQ_TOKEN", pv (env "IBMQ_TOKEN"))]
    else if provider_key == "ionq" || provider_key == "rigetti" then
      [("AWS_ACCESS_KEY_ID", pv (env "AWS_ACCESS_KEY_ID")),
       ("AWS_SECRET_ACCESS_KEY", pv (env "AWS_SECRET_ACCESS_KEY")),
       ("AWS_REGION", pv (env "AWS_REGION"))]
    else if provider_key == "quantinuum" then
      [("AZURE_QUANTUM_SUBSCRIPTION_ID", pv (env "AZURE_QUANTUM_SUBSCRIPTION_ID")),
       ("AZURE_QUANTUM_WORKSPACE_NAME", pv (env "AZURE_QUANTUM_WORKSPACE_NAME")),
       ("AZURE_QUANTUM_RESOURCE_GROUP", pv (env "AZURE_QUANTUM_RESOURCE_GROUP")),
       ("AZURE_QUANTUM_LOCATION", pv (env "AZURE_QUANTUM_LOCATION"))]
    else if provider_key == "pennylane" then
      [("PENNYLANE_API_KEY", pv (env "PENNYLANE_API_KEY"))]
    else []

/-- run_circuit lines 133-136 / 162-165: resolve the provider family's
credentials and add backend_name, shots and simulator_choice. -/
def prepCreds (store : List (String × Creds)) (env : String → Option String)
    (info : BackendInfo) (shots : Nat) (simulator_choice : String) : Creds :=
  dictInsert (dictInsert (dictInsert (_get_credentials_for_provider store env info.provider)
    "backend_name" (.str info.backend_name)) "shots" (.nat shots))
    "simulator_choice" (.str simulator_choice)

/-- The /run request payload after JSON decoding (src/backend/app.py lines
108-117); the circuit is modelled as present and well-typed, the payload
defaults are those of data.get. -/
structure RunRequest where
  provider : Option String
  circuit : CircuitData
  use_simulator_if_qpu_fails : Bool := false
  simulator_choice : String := "aer_qasm_simulator"
  shots : Nat := 1024
deriving Repr, DecidableEq

/-- The JSON body of a /run response; an absent key is `none`. -/
structure RespBody where
  error : Option String := none
  backend_used : Option String := none
  original_backend_attempted : Option String := none
  fallback_reason : Option String := none
  counts : Option (List (String × Nat)) := none
  statevector : Option (List Amp) := none
  probabilities : Option (List (String × Rat)) := none
  num_qubits : Option Nat := none
deriving Repr, DecidableEq

/-- A Flask response: HTTP status plus JSON body. -/
structure HttpResponse where
  status : Nat
  body : RespBody
deriving Repr, DecidableEq

/-- jsonify(result) for a runner result dict. -/
def bodyOf (d : ResultDict) : RespBody :=
  { error := d.error, backend_used := some d.backend_used, counts := d.counts,
    statevector := d.statevector, probabilities := d.probabilities,
    num_qubits := d.num_qubits }

/-- The error message of app.py lines 152-156 (fallback requested but the
simulator_choice key is unknown or names a QPU). -/
def invalidFallbackMsg (pk emsg sc : String) : String :=
  "Original execution on \'" ++ pk ++ "\' failed: " ++ emsg ++
    ". Invalid fallback simulator choice: " ++ sc ++ ". Cannot proceed."

/-- The error message of app.py lines 171-173 (primary and fallback both
failed). -/
def bothFailedMsg (pk emsg fbn e2 : String) : String :=
  "Original execution on \'" ++ pk ++ "\' failed: " ++ emsg ++
    ". Fallback to \'" ++ fbn ++ "\' also failed: " ++ e2

/-- The error message of app.py lines 199-201 (credential-classified
ValueError, invalid fallback choice). -/
def credInvalidFallbackMsg (pk m sc : String) : String :=
  "Original execution on \'" ++ pk ++ "\' failed due to credentials: " ++ m ++
    ". Invalid fallback simulator choice: " ++ sc ++ ". Cannot proceed."

/-- The error message of app.py lines 217-219 (credential-classified
ValueError, fallback also failed). -/
def credBothFailedMsg (pk m fbn e2 : String) : String :=
  "Original execution on \'" ++ pk ++ "\' failed due to credentials: " ++ m ++
    ". Fallback to \'" ++ fbn ++ "\' also failed: " ++ e2

/-- The backend_used annotation of app.py lines 179 / 225. -/
def fallbackUsedTag (ru pk : String) : String :=
  "FALLBACK: " ++ ru ++ " (original target: " ++ pk ++ ")"

/-- Python "needle in hay" for strings. -/
def containsSub (needle hay : String) : Bool :=
  (hay.splitOn needle).length != 1

/-- app.py line 193: classify a ValueError message as credential-related by
substring sniffing on the lowercased message. -/
def hasCredKeyword (m : String) : Bool :=
  let l := pyLower m
  containsSub "credentials" l || containsSub "token" l || containsSub "access key" l ||
    containsSub "connection" l || containsSub "authentication" l

/-- The except-ValueError handler of run_circuit (src/backend/app.py lines
190-234).  trace carries the runner invocations already made; an exception
raised by the fallback call inside this handler propagates out of the Flask
view (a bare 500 with no JSON body is modelled as the default body). -/
def handle_value_error (store : List (String × Creds)) (env : String → Option String)
    (o : Oracle) (req : RunRequest) (pk : String) (is_qpu : Bool) (m : String)
    (trace : List RunnerId) : HttpResponse × List RunnerId :=
  if hasCredKeyword m then
    if is_qpu && req.use_simulator_if_qpu_fails then
      match List.lookup req.simulator_choice BACKEND_MAP with
      | some fb =>
        if fb.provider_type == "qpu" then
          (⟨500, { error := some (credInvalidFallbackMsg pk m req.simulator_choice),
                   backend_used := some pk }⟩, trace)
        else
          let fbCreds := prepCreds store env fb req.shots req.simulator_choice
          match execRunner o fb.runner req.circuit fbCreds with
          | .raise _ _ => (⟨500, {}⟩, trace ++ [fb.runner])
          | .ret fr =>
            match fr.error with
            | some e2 =>
              (⟨500, { error := some (credBothFailedMsg pk m fb.backend_name e2),
                       backend_used := some fr.backend_used,
                       original_backend_attempted := some pk,
                       fallback_reason := some m }⟩, trace ++ [fb.runner])
            | Option.none =>
              (⟨200, { bodyOf fr with
                       backend_used := some (fallbackUsedTag fr.backend_used pk),
                       original_backend_attempted := some pk,
                       fallback_reason := some m }⟩, trace ++ [fb.runner])
      | Option.none =>
        (⟨500, { error := some (credInvalidFallbackMsg pk m req.simulator_choice),
                 backend_used := some pk }⟩, trace)
    else
      (⟨401, { error := some ("Credential error for " ++ pk ++ ": " ++ m),
               backend_used := some pk }⟩, trace)
  else
    (⟨400, { error := some ("Circuit validation error: " ++ m),
             backend_used := some pk }⟩, trace)

/-- run_circuit lines 146-185: the primary runner returned a dict carrying
an error.  Decide fallback eligibility, possibly invoke the fallback runner,
and build the response. -/
def primary_failed (store : List (String × Creds)) (env : String → Option String)
    (o : Oracle) (req : RunRequest) (provider_key : String) (info : BackendInfo)
    (result : ResultDict) (emsg : String) : HttpResponse × List RunnerId :=
  if (info.provider_type == "qpu") && req.use_simulator_if_qpu_fails then
    match List.lookup req.simulator_choice BACKEND_MAP with
    | some fb =>
      if fb.provider_type == "qpu" then
        (⟨500, { error := some (invalidFallbackMsg provider_key emsg req.simulator_choice),
                 backend_used := some result.backend_used }⟩, [info.runner])
      else
        match execRunner o fb.runner req.circuit
            (prepCreds store env fb req.shots req.simulator_choice) with
        | .ret fr =>
          match fr.error with
          | some e2 =>
            (⟨500, { error := some (bothFailedMsg provider_key emsg fb.backend_name e2),
                     backend_used := some fr.backend_used,
                     original_backend_attempted := some provider_key }⟩,
             [info.runner, fb.runner])
          | Option.none =>
            (⟨200, { bodyOf fr with
                     backend_used := some (fallbackUsedTag fr.backend_used provider_key),
                     original_backend_attempted := some provider_key,
                     fallback_reason := some emsg }⟩,
             [info.runner, fb.runner])
        | .raise true m2 =>
          handle_value_error store env o req provider_key (info.provider_type == "qpu") m2
            [info.runner, fb.runner]
        | .raise false m2 =>
          (⟨500, { error := some ("An unexpected error occurred: " ++ m2),
                   backend_used := some provider_key }⟩, [info.runner, fb.runner])
    | Option.none =>
      (⟨500, { error := some (invalidFallbackMsg provider_key emsg req.simulator_choice),
               backend_used := some result.backend_used }⟩, [info.runner])
  else
    (⟨500, { error := some emsg, backend_used := some result.backend_used }⟩,
     [info.runner])

/-- run_circuit, the /run handler (src/backend/app.py lines 100-238).  The
result also carries the trace of runner invocations made while serving the
request (one entry per adapter call, in order). -/
def run_circuit (store : List (String × Creds)) (env : String → Option String)
    (o : Oracle) (req : RunRequest) : HttpResponse × List RunnerId :=
  match req.provider with
  | Option.none =>
    (⟨400, { error := some "Missing \'provider\' or \'circuit\' in payload" }⟩, [])
  | some provider_key =>
    match List.lookup provider_key BACKEND_MAP with
    | Option.none =>
      (⟨400, { error := some ("Unsupported provider: " ++ provider_key) }⟩, [])
    | some info =>
      match execRunner o info.runner req.circuit
          (prepCreds store env info req.shots req.simulator_choice) with
      | .ret result =>
        match result.error with
        | some emsg => primary_failed store env o req provider_key info result emsg
        | Option.none => (⟨200, bodyOf result⟩, [info.runner])
      | .raise true m =>
        handle_value_error store env o req provider_key (info.provider_type == "qpu") m
          [info.runner]
      | .raise false m =>
        (⟨500, { error := some ("An unexpected error occurred: " ++ m),
                 backend_used := some provider_key }⟩, [info.runner])

/-- The credential store with Python object identity made explicit: a heap
of dict objects addressed by allocation index, and the module-level
_in_memory_credentials_store mapping a provider family to the address of
its saved dict. -/
structure AppState where
  heap : List Creds
  store : List (String × Nat)
deriving Repr

/-- Dereference a heap address. -/
def heapGet (h : List Creds) (a : Nat) : Creds := h.getD a []

/-- Overwrite the dict at a heap address. -/
def heapSet (h : List Creds) (a : Nat) (c : Creds) : List Creds := h.set a c

/-- _get_credentials_for_provider at the heap level: a hit in the store is
returned as a .copy() (a freshly allocated dict with the same content); a
miss allocates the environment-derived bundle.  Returns the address handed
to the caller and the new state. -/
def getCredentialsAlloc (st : AppState) (env : String → Option String)
    (pk : String) : Nat × AppState :=
  match List.lookup pk st.store with
  | some a => (st.heap.length, ⟨st.heap ++ [heapGet st.heap a], st.store⟩)
  | Option.none => (st.heap.length, ⟨st.heap ++ [_get_credentials_for_provider [] env pk], st.store⟩)

/-- run_circuit lines 133-136 at the heap level: the handler mutates the
dict _get_credentials_for_provider returned, in place, through its
address. -/
def prepareRunCredentials (st : AppState) (env : String → Option String)
    (pk backend_name : String) (shots : Nat) (sc : String) : Nat × AppState :=
  let r := getCredentialsAlloc st env pk
  let a := r.1
  let st1 := r.2
  let h2 := heapSet st1.heap a (dictInsert (heapGet st1.heap a) "backend_name" (.str backend_name))
  let h3 := heapSet h2 a (dictInsert (heapGet h2 a) "shots" (.nat shots))
  let h4 := heapSet h3 a (dictInsert (heapGet h3 a) "simulator_choice" (.str sc))
  (a, ⟨h4, st1.store⟩)

theorem lookup_dictInsert_self (d : Creds) (k : String) (v : PyVal) :
    List.lookup k (dictInsert d k v) = some v := by
  induction d with
  | nil => simp [dictInsert, List.lookup]
  | cons hd tl ih =>
    obtain ⟨k0, v0⟩ := hd
    simp only [dictInsert]
    by_cases h : k0 = k
    · subst h; simp [List.lookup]
    · have hb : (k0 == k) = false := by simp [h]
      have hb2 : (k == k0) = false := by
        simp only [beq_eq_false_iff_ne, ne_eq]
        exact fun hk => h hk.symm
      simp [hb, List.lookup, hb2, ih]

theorem lookup_dictInsert_ne (d : Creds) (k k2 : String) (v : PyVal) (h : k2 ≠ k) :
    List.lookup k2 (dictInsert d k v) = List.lookup k2 d := by
  induction d with
  | nil =>
    have hb : (k2 == k) = false := by simp [h]
    simp [dictInsert, List.lookup, hb]
  | cons hd tl ih =>
    obtain ⟨k0, v0⟩ := hd
    simp only [dictInsert]
    by_cases hk : k0 = k
    · subst hk
      have hb : (k2 == k0) = false := by simp [h]
      simp [List.lookup, hb]
    · have hb : (k0 == k) = false := by simp [hk]
      simp only [hb, if_false, List.lookup]
      cases hq : (k2 == k0) <;> simp [ih]

theorem lookup_mem {β : Type} {k : String} {v : β} :
    ∀ {l : List (String × β)}, List.lookup k l = some v → (k, v) ∈ l := by
  intro l
  induction l with
  | nil => simp [List.lookup]
  | cons hd tl ih =>
    obtain ⟨a, b⟩ := hd
    intro hl
    simp only [List.lookup] at hl
    by_cases hk : (k == a) = true
    · have hka : k = a := by simpa [beq_iff_eq] using hk
      rw [hk] at hl
      simp only [if_true] at hl
      cases hl
      subst hka
      exact List.mem_cons_self _ _
    · have hkf : (k == a) = false := by simpa using hk
      rw [hkf] at hl
      simp only [Bool.false_eq_true, if_false] at hl
      exact List.mem_cons_of_mem _ (ih hl)

/-- Every BACKEND_MAP entry has a nonempty concrete backend name and a
provider_type that is either qpu or simulator. -/
theorem backendMap_wf :
    ∀ p ∈ BACKEND_MAP, p.2.backend_name ≠ "" ∧
      (p.2.provider_type = "qpu" ∨ p.2.provider_type = "simulator") := by decide

theorem prepCreds_backend_name (store : List (String × Creds)) (env : String → Option String)
    (info : BackendInfo) (shots : Nat) (sc : String) :
    credVal (prepCreds store env info shots sc) "backend_name" = .str info.backend_name := by
  unfold prepCreds credVal
  rw [lookup_dictInsert_ne _ _ _ _ (by decide), lookup_dictInsert_ne _ _ _ _ (by decide),
    lookup_dictInsert_self]
  rfl

theorem prepCreds_truthy (store : List (String × Creds)) (env : String → Option String)
    (info : BackendInfo) (shots : Nat) (sc : String) (hbn : info.backend_name ≠ "") :
    (credVal (prepCreds store env info shots sc) "backend_name").truthy = true := by
  rw [prepCreds_backend_name]
  simp [PyVal.truthy, hbn]

/-- Every runner returns (rather than raising) when called with a
credentials dict whose backend_name is truthy — which is how run_circuit
always calls them. -/
theorem execRunner_ret (o : Oracle) (rid : RunnerId) (cd : CircuitData) (creds : Creds)
    (h : (credVal creds "backend_name").truthy = true) :
    ∃ d, execRunner o rid cd creds = .ret d := by
  cases rid
  case ibm => exact ⟨_, rfl⟩
  case ionq =>
    simp only [execRunner, run_ionq, h, Bool.not_true, Bool.false_eq_true, if_false]
    exact ⟨_, rfl⟩
  case rigetti =>
    simp only [execRunner, run_rigetti, h, Bool.not_true, Bool.false_eq_true, if_false]
    exact ⟨_, rfl⟩
  case cirq => exact ⟨_, rfl⟩
  case pennylane => exact ⟨_, rfl⟩
  case aer => exact ⟨_, rfl⟩

/-- Once the primary attempt has failed with an error dict, the handler
makes at most one more runner invocation. -/
theorem primary_failed_trace (store : List (String × Creds)) (env : String → Option String)
    (o : Oracle) (req : RunRequest) (pk : String) (info : BackendInfo)
    (result : ResultDict) (emsg : String) :
    (primary_failed store env o req pk info result emsg).2.length ≤ 2 := by
  unfold primary_failed
  cases hq : (info.provider_type == "qpu") && req.use_simulator_if_qpu_fails with
  | false => simp [hq]
  | true =>
    simp only [hq, if_true]
    cases hlk : List.lookup req.simulator_choice BACKEND_MAP with
    | none => simp [hlk]
    | some fb =>
      simp only [hlk]
      cases hft : fb.provider_type == "qpu" with
      | true => simp [hft]
      | false =>
        simp only [hft, Bool.false_eq_true, if_false]
        have hbn2 : fb.backend_name ≠ "" := (backendMap_wf _ (lookup_mem hlk)).1
        obtain ⟨fr, hfr⟩ := execRunner_ret o fb.runner req.circuit _
          (prepCreds_truthy store env fb req.shots req.simulator_choice hbn2)
        simp only [hfr]
        cases herr2 : fr.error <;> simp

/-- C6: regardless of request, store, environment and adapter behaviour, a
/run request issues at most two runner invocations (primary plus at most
one fallback); after a failed fallback the combined failure is terminal. -/
theorem c6_at_most_two_runner_invocations (store : List (String × Creds))
    (env : String → Option String) (o : Oracle) (req : RunRequest) :
    (run_circuit store env o req).2.length ≤ 2 := by
  cases hp : req.provider with
  | none => simp [run_circuit, hp]
  | some pk =>
    cases hin : List.lookup pk BACKEND_MAP with
    | none => simp [run_circuit, hp, hin]
    | some info =>
      have hbn : info.backend_name ≠ "" := (backendMap_wf _ (lookup_mem hin)).1
      obtain ⟨d, hd⟩ := execRunner_ret o info.runner req.circuit _
        (prepCreds_truthy store env info req.shots req.simulator_choice hbn)
      cases herr : d.error with
      | none => simp [run_circuit, hp, hin, hd, herr]
      | some emsg =>
        simp only [run_circuit, hp, hin, hd, herr]
        exact primary_failed_trace store env o req pk info d emsg

/-- Reduction of run_circuit when the primary runner returned an error
dict. -/
theorem run_circuit_ret_failed {store : List (String × Creds)} {env : String → Option String}
    {o : Oracle} {req : RunRequest} {pk : String} {info : BackendInfo} {d : ResultDict}
    {emsg : String}
    (hp : req.provider = some pk)
    (hin : List.lookup pk BACKEND_MAP = some info)
    (hd : execRunner o info.runner req.circuit
      (prepCreds store env info req.shots req.simulator_choice) = .ret d)
    (herr : d.error = some emsg) :
    run_circuit store env o req = primary_failed store env o req pk info d emsg := by
  simp only [run_circuit, hp, hin, hd, herr]

/-- C1: for a /run request whose primary attempt fails (the runner returned
an error dict), a fallback execution is attempted if and only if the primary
descriptor is a QPU, the caller opted in, and the simulator_choice key
resolves in BACKEND_MAP to a simulator descriptor; when fallback was
requested but the key is absent, unknown, or resolves to a QPU, no fallback
runner is invoked and the original failure is returned annotated with the
rejection reason. -/
theorem c1_fallback_iff_eligibility (store : List (String × Creds))
    (env : String → Option String) (o : Oracle) (req : RunRequest) (pk : String)
    (info : BackendInfo) (d : ResultDict) (emsg : String)
    (hp : req.provider = some pk)
    (hin : List.lookup pk BACKEND_MAP = some info)
    (hd : execRunner o info.runner req.circuit
      (prepCreds store env info req.shots req.simulator_choice) = .ret d)
    (herr : d.error = some emsg) :
    (((run_circuit store env o req).2.length = 2) ↔
      (info.provider_type = "qpu" ∧ req.use_simulator_if_qpu_fails = true ∧
        ∃ fb, List.lookup req.simulator_choice BACKEND_MAP = some fb ∧
          fb.provider_type = "simulator")) ∧
    (info.provider_type = "qpu" → req.use_simulator_if_qpu_fails = true →
      (∀ fb, List.lookup req.simulator_choice BACKEND_MAP = some fb →
        fb.provider_type = "qpu") →
      (run_circuit store env o req).2 = [info.runner] ∧
      (run_circuit store env o req).1.body.error =
        some (invalidFallbackMsg pk emsg req.simulator_choice)) := by
  have he := run_circuit_ret_failed hp hin hd herr
  rw [he]
  constructor
  · constructor
    · intro hlen
      cases hq : (info.provider_type == "qpu") && req.use_simulator_if_qpu_fails with
      | false => simp [primary_failed, hq] at hlen
      | true =>
        rw [Bool.and_eq_true, beq_iff_eq] at hq
        obtain ⟨hq1, hq2⟩ := hq
        refine ⟨hq1, hq2, ?_⟩
        cases hlk : List.lookup req.simulator_choice BACKEND_MAP with
        | none => simp [primary_failed, hq1, hq2, hlk] at hlen
        | some fb =>
          cases hft : fb.provider_type == "qpu" with
          | true => simp [primary_failed, hq1, hq2, hlk, hft] at hlen
          | false =>
            refine ⟨fb, rfl, ?_⟩
            have hwf := (backendMap_wf _ (lookup_mem hlk)).2
            cases hwf with
            | inl hqpu => rw [hqpu] at hft; simp at hft
            | inr hsim => exact hsim
    · rintro ⟨hq1, hq2, fb, hlk, hsim⟩
      have hft : (fb.provider_type == "qpu") = false := by simp [hsim]
      obtain ⟨fr, hfr⟩ := execRunner_ret o fb.runner req.circuit _
        (prepCreds_truthy store env fb req.shots req.simulator_choice
          (backendMap_wf _ (lookup_mem hlk)).1)
      cases herr2 : fr.error <;>
        simp [primary_failed, hq1, hq2, hlk, hft, hfr, herr2]
  · intro hq1 hq2 hall
    cases hlk : List.lookup req.simulator_choice BACKEND_MAP with
    | none => simp [primary_failed, hq1, hq2, hlk]
    | some fb =>
      have hft : (fb.provider_type == "qpu") = true := by
        simp [hall fb hlk]
      simp [primary_failed, hq1, hq2, hlk, hft]

def env0 : String → Option String := fun _ => Option.none

/-- A fixed oracle for concrete evaluations: every library call succeeds. -/
def oracle0 : Oracle :=
  { ibm := { serviceErr := none, backendErr := none, runCounts := [("00", 1024)], runErr := none },
    ionq := { localCounts := [("00", 1024)], localErr := none, sv1Counts := [("00", 1024)],
              sv1Amps := [], sv1Err := none, qpuDeviceErr := none,
              qpuCounts := [("00", 1024)], qpuErr := none },
    rigetti := { localCounts := [("00", 1024)], localErr := none, qpuDeviceErr := none,
                 qpuCounts := [("00", 1024)], qpuErr := none },
    cirq := { runCounts := [("00", 1024)], runErr := none,
              simAmps := [(1, 0), (0, 0)], simErr := none },
    pennylane := { lightningImportErr := false, remoteDevErr := none,
                   sampleCounts := [("00", 1024)], sampleErr := none,
                   stateAmps := [(1, 0), (0, 0)], stateErr := none },
    aer := { qasmCounts := [("00", 1024)], qasmErr := none,
             svAmps := [(1, 0), (0, 0)], svErr := none } }

/-- A /run request targeting the IonQ QPU with fallback opted in; with no
credentials available the primary attempt fails with an error dict. -/
def req1 : RunRequest :=
  { provider := some "aws_ionq", circuit := ⟨1, [{ gate := "h", target := some 0 }]⟩,
    use_simulator_if_qpu_fails := true }

def ionqNoCredsErr : ResultDict :=
  { error := some "AWS credentials (AWS_ACCESS_KEY_ID, AWS_SECRET_ACCESS_KEY, AWS_REGION) are required for IonQ QPU.",
    backend_used := "ionq/qpu" }

theorem c1_witness :
    (((run_circuit [] env0 oracle0 req1).2.length = 2) ↔
      ((⟨"ionq", .ionq, "ionq/qpu", "qpu"⟩ : BackendInfo).provider_type = "qpu" ∧
        req1.use_simulator_if_qpu_fails = true ∧
        ∃ fb, List.lookup req1.simulator_choice BACKEND_MAP = some fb ∧
          fb.provider_type = "simulator")) ∧
    ((⟨"ionq", .ionq, "ionq/qpu", "qpu"⟩ : BackendInfo).provider_type = "qpu" →
      req1.use_simulator_if_qpu_fails = true →
      (∀ fb, List.lookup req1.simulator_choice BACKEND_MAP = some fb →
        fb.provider_type = "qpu") →
      (run_circuit [] env0 oracle0 req1).2 = [(⟨"ionq", .ionq, "ionq/qpu", "qpu"⟩ : BackendInfo).runner] ∧
      (run_circuit [] env0 oracle0 req1).1.body.error =
        some (invalidFallbackMsg "aws_ionq" "AWS credentials (AWS_ACCESS_KEY_ID, AWS_SECRET_ACCESS_KEY, AWS_REGION) are required for IonQ QPU." req1.simulator_choice)) :=
  c1_fallback_iff_eligibility [] env0 oracle0 req1 "aws_ionq"
    ⟨"ionq", .ionq, "ionq/qpu", "qpu"⟩ ionqNoCredsErr
    "AWS credentials (AWS_ACCESS_KEY_ID, AWS_SECRET_ACCESS_KEY, AWS_REGION) are required for IonQ QPU."
    rfl rfl rfl rfl

/-- C8: when the primary attempt succeeds, its normalized result is returned
immediately with status 200, the single runner invocation is the primary
one, and the body carries neither fallback_reason nor
original_backend_attempted. -/
theorem c8_primary_success_response (store : List (String × Creds))
    (env : String → Option String) (o : Oracle) (req : RunRequest) (pk : String)
    (info : BackendInfo) (d : ResultDict)
    (hp : req.provider = some pk)
    (hin : List.lookup pk BACKEND_MAP = some info)
    (hd : execRunner o info.runner req.circuit
      (prepCreds store env info req.shots req.simulator_choice) = .ret d)
    (herr : d.error = Option.none) :
    run_circuit store env o req = (⟨200, bodyOf d⟩, [info.runner]) ∧
    (run_circuit store env o req).1.body.fallback_reason = Option.none ∧
    (run_circuit store env o req).1.body.original_backend_attempted = Option.none := by
  have he : run_circuit store env o req = (⟨200, bodyOf d⟩, [info.runner]) := by
    simp only [run_circuit, hp, hin, hd, herr]
  refine ⟨he, ?_, ?_⟩ <;> rw [he] <;> rfl

def reqCirq : RunRequest :=
  { provider := some "google_cirq",
    circuit := ⟨1, [{ gate := "h", target := some 0 }, { gate := "measure", target := some 0 }]⟩ }

def cirqOkCounts : ResultDict :=
  { backend_used := "Cirq Local Simulator", num_qubits := some 1,
    counts := some [("00", 1024)], statevector := none, probabilities := none }

theorem c8_witness :
    run_circuit [] env0 oracle0 reqCirq = (⟨200, bodyOf cirqOkCounts⟩, [RunnerId.cirq]) ∧
    (run_circuit [] env0 oracle0 reqCirq).1.body.fallback_reason = Option.none ∧
    (run_circuit [] env0 oracle0 reqCirq).1.body.original_backend_attempted = Option.none :=
  c8_primary_success_response [] env0 oracle0 reqCirq "google_cirq"
    ⟨"cirq", .cirq, "cirq_simulator", "simulator"⟩ cirqOkCounts
    rfl rfl rfl rfl

/-- C7: when the primary attempt fails and the fallback attempt succeeds,
the response is HTTP 200 carrying the fallback result, with backend_used
annotated as a fallback, the original backend key in
original_backend_attempted, and the primary failure message in
fallback_reason. -/
theorem c7_fallback_success_response (store : List (String × Creds))
    (env : String → Option String) (o : Oracle) (req : RunRequest) (pk : String)
    (info fb : BackendInfo) (d fr : ResultDict) (emsg : String)
    (hp : req.provider = some pk)
    (hin : List.lookup pk BACKEND_MAP = some info)
    (hd : execRunner o info.runner req.circuit
      (prepCreds store env info req.shots req.simulator_choice) = .ret d)
    (herr : d.error = some emsg)
    (hq1 : info.provider_type = "qpu")
    (hq2 : req.use_simulator_if_qpu_fails = true)
    (hlk : List.lookup req.simulator_choice BACKEND_MAP = some fb)
    (hsim : fb.provider_type = "simulator")
    (hfr : execRunner o fb.runner req.circuit
      (prepCreds store env fb req.shots req.simulator_choice) = .ret fr)
    (hfrok : fr.error = Option.none) :
    run_circuit store env o req =
      (⟨200, { bodyOf fr with
               backend_used := some (fallbackUsedTag fr.backend_used pk),
               original_backend_attempted := some pk,
               fallback_reason := some emsg }⟩,
       [info.runner, fb.runner]) := by
  have he := run_circuit_ret_failed hp hin hd herr
  rw [he]
  have hft : (fb.provider_type == "qpu") = false := by simp [hsim]
  simp [primary_failed, hq1, hq2, hlk, hft, hfr, hfrok]

def aerFallbackOk : ResultDict :=
  { backend_used := "Aer QASM Simulator", num_qubits := some 1,
    counts := some [("00", 1024)], statevector := none, probabilities := none }

theorem c7_witness :
    run_circuit [] env0 oracle0 req1 =
      (⟨200, { bodyOf aerFallbackOk with
               backend_used := some (fallbackUsedTag "Aer QASM Simulator" "aws_ionq"),
               original_backend_attempted := some "aws_ionq",
               fallback_reason := some "AWS credentials (AWS_ACCESS_KEY_ID, AWS_SECRET_ACCESS_KEY, AWS_REGION) are required for IonQ QPU." }⟩,
       [RunnerId.ionq, RunnerId.aer]) :=
  c7_fallback_success_response [] env0 oracle0 req1 "aws_ionq"
    ⟨"ionq", .ionq, "ionq/qpu", "qpu"⟩ ⟨"aer", .aer, "aer_qasm_simulator", "simulator"⟩
    ionqNoCredsErr aerFallbackOk
    "AWS credentials (AWS_ACCESS_KEY_ID, AWS_SECRET_ACCESS_KEY, AWS_REGION) are required for IonQ QPU."
    rfl rfl (by decide) rfl rfl rfl rfl rfl rfl rfl

/-- The request of the C2 analysis: a QPU primary, fallback opted in, and a
circuit whose only gate has an unrecognized kind. -/
def reqBadGate : RunRequest :=
  { provider := some "aws_ionq", circuit := ⟨1, [{ gate := "foo", target := some 0 }]⟩,
    use_simulator_if_qpu_fails := true }

/-- C2 (code-bug evidence): a validation failure — an unsupported gate kind —
is returned by the ionq adapter as an ordinary error dict, and the
dispatcher, which cannot distinguish failure kinds in dict results, then
invokes the aer fallback runner and even reports overall success, instead of
rejecting the request without any fallback attempt. -/
theorem c2_validation_failure_triggers_fallback :
    run_ionq reqBadGate.circuit
        (prepCreds [] env0 ⟨"ionq", .ionq, "ionq/qpu", "qpu"⟩ reqBadGate.shots
          reqBadGate.simulator_choice) oracle0.ionq =
      .ret { error := some "Unsupported gate type for IonQ (Braket): foo",
             backend_used := "ionq/qpu" } ∧
    (run_circuit [] env0 oracle0 reqBadGate).2 = [RunnerId.ionq, RunnerId.aer] ∧
    (run_circuit [] env0 oracle0 reqBadGate).1.status = 200 :=
  ⟨rfl, rfl, rfl⟩

/-- Exactly one of counts, statevector, error is present in a terminal
runner result. -/
def exactlyOneTerminal (d : ResultDict) : Prop :=
  (d.counts.isSome = true ∧ d.statevector = Option.none ∧ d.error = Option.none) ∨
  (d.counts = Option.none ∧ d.statevector.isSome = true ∧ d.error = Option.none) ∨
  (d.counts = Option.none ∧ d.statevector = Option.none ∧ d.error.isSome = true)

/-- The braket builders never attach result types to the circuit. -/
theorem braket_build_result_types (cd : CircuitData) (c : BraketCircuit)
    (h : _build_braket_circuit cd = .ok c) : c.result_types = [] := by
  unfold _build_braket_circuit at h
  cases hb : braketGates "IonQ (Braket)" cd.gates with
  | error e => rw [hb] at h; simp [Except.map] at h
  | ok l =>
    rw [hb] at h
    simp only [Except.map, Except.ok.injEq] at h
    rw [← h]

theorem run_ionq_terminal (cd : CircuitData) (c : Creds) (oi : IonqOracle) (v : ResultDict)
    (h : run_ionq cd c oi = .ret v) : exactlyOneTerminal v := by
  unfold run_ionq at h
  cases htr : (credVal c "backend_name").truthy with
  | false => simp [htr] at h
  | true =>
    simp only [htr, Bool.not_true, Bool.false_eq_true, if_false, PyOutcome.ret.injEq] at h
    subst h
    cases hb : _build_braket_circuit cd with
    | error e => simp [hb, exactlyOneTerminal]
    | ok circuit =>
      have hrt : circuit.result_types = [] := braket_build_result_types cd circuit hb
      simp only [hb]
      repeat' split
      all_goals simp_all [exactlyOneTerminal, hrt]

theorem run_aer_terminal (cd : CircuitData) (c : Creds) (oa : AerOracle) (v : ResultDict)
    (h : run_aer cd c oa = .ret v) : exactlyOneTerminal v := by
  unfold run_aer at h
  simp only [PyOutcome.ret.injEq] at h
  subst h
  cases hb : _build_qiskit_circuit_aer cd with
  | error e => simp [hb, exactlyOneTerminal]
  | ok pr =>
    simp only [hb]
    repeat' split
    all_goals simp_all [exactlyOneTerminal]

theorem run_cirq_terminal (cd : CircuitData) (c : Creds) (oc : CirqOracle) (v : ResultDict)
    (h : run_cirq cd c oc = .ret v) : exactlyOneTerminal v := by
  unfold run_cirq at h
  simp only [PyOutcome.ret.injEq] at h
  subst h
  cases hb : _build_cirq_circuit cd with
  | error e => simp [hb, exactlyOneTerminal]
  | ok ops =>
    simp only [hb]
    repeat' split
    all_goals simp_all [exactlyOneTerminal]

/-- C3: every terminal result returned by the ionq, aer or cirq runner has
exactly one of counts, statevector, error present: counts and statevector
are never both present, and both are absent exactly when error is
present. -/
theorem c3_terminal_result_exactly_one (cd : CircuitData) (cIonq cAer cCirq : Creds)
    (oi : IonqOracle) (oa : AerOracle) (oc : CirqOracle) (v : ResultDict)
    (h : run_ionq cd cIonq oi = .ret v ∨ run_aer cd cAer oa = .ret v ∨
      run_cirq cd cCirq oc = .ret v) :
    exactlyOneTerminal v := by
  rcases h with h | h | h
  · exact run_ionq_terminal cd cIonq oi v h
  · exact run_aer_terminal cd cAer oa v h
  · exact run_cirq_terminal cd cCirq oc v h

theorem c3_witness :
    exactlyOneTerminal
      { error := some "Unsupported Aer simulator: qasm_simulator", backend_used := "N/A" } :=
  c3_terminal_result_exactly_one ⟨1, []⟩ [] [] [] oracle0.ionq oracle0.aer oracle0.cirq
    { error := some "Unsupported Aer simulator: qasm_simulator", backend_used := "N/A" }
    (Or.inr (Or.inl rfl))

def badNegCircuit : CircuitData := ⟨2, [{ gate := "x", target := some (-1) }]⟩

/-- C4 (code-bug evidence): a gate whose target index is -1 (outside
[0, qubits)) does not make cirq circuit construction fail: Python list
indexing wraps the index around, the X gate is silently applied to qubit 1,
and the run reports success. -/
theorem c4_negative_index_silently_wraps :
    _build_cirq_circuit badNegCircuit = .ok [COp.g1 "X" 1] ∧
    ¬ (0 ≤ (-1 : Int) ∧ (-1 : Int) < 2) ∧
    run_cirq badNegCircuit [] oracle0.cirq =
      .ret { backend_used := "Cirq Local Simulator (Statevector)", num_qubits := some 2,
             counts := none, statevector := some oracle0.cirq.simAmps,
             probabilities := some (probsOf 2 oracle0.cirq.simAmps) } :=
  ⟨rfl, by decide, rfl⟩

/-- C5 (code-bug evidence): the aer and ibm adapters translate a gate list
containing the unrecognized kind "foo" successfully, silently dropping the
gate and keeping the rest of the circuit, instead of reporting an
unsupported-gate failure (cirq, by contrast, does fail). -/
theorem c5_unknown_gate_silently_skipped :
    _build_qiskit_circuit_aer ⟨1, [{ gate := "h", target := some 0 },
        { gate := "foo", target := some 0 }, { gate := "x", target := some 0 }]⟩ =
      .ok ([QOp.g1 "h" 0, QOp.g1 "x" 0], false) ∧
    ibmBuildCircuit ⟨1, [{ gate := "foo", target := some 0 }]⟩ = .ok [] ∧
    _build_cirq_circuit ⟨1, [{ gate := "foo", target := some 0 }]⟩ =
      .error "Unsupported gate type for Cirq: foo" :=
  ⟨rfl, rfl, rfl⟩

/-- C9 counterexample: an rx gate whose params carry no theta makes the cirq
and quantinuum translations fail with a KeyError instead of defaulting the
angle to 0. -/
theorem c9_counterexample_missing_angle_fails :
    _build_cirq_circuit ⟨1, [{ gate := "rx", target := some 0, params := some [] }]⟩ =
      .error "KeyError: theta" ∧
    _build_qiskit_circuit_quantinuum
        ⟨1, [{ gate := "rx", target := some 0, params := some [] }]⟩ =
      .error "KeyError: theta" :=
  ⟨rfl, rfl⟩

theorem cirqGate_rx_shape (po : List (String × Rat)) :
    cirqGate 1 { gate := "rx", target := some 0, params := some po } =
      (keyErr (List.lookup "theta" po) "theta").bind
        (fun th => .ok [COp.rot1 "rx" th 0]) := rfl

theorem quantinuumStep_rx_shape (po : List (String × Rat)) :
    quantinuumStep 1 { gate := "rx", target := some 0, params := some po } =
      (keyErr (List.lookup "theta" po) "theta").bind
        (fun th => .ok [QOp.rot1 "rx" th 0]) := rfl

/-- C9 as amended: for an rx gate whose params lack theta, the aer, ibm,
ionq, rigetti and pennylane translations default the angle to 0 and succeed,
while the cirq and quantinuum translations fail with a KeyError. -/
theorem c9_amended_angle_defaults (po : List (String × Rat))
    (h : List.lookup "theta" po = Option.none) :
    _build_qiskit_circuit_aer ⟨1, [{ gate := "rx", target := some 0, params := some po }]⟩ =
      .ok ([QOp.rot1 "rx" 0 0], false) ∧
    ibmBuildCircuit ⟨1, [{ gate := "rx", target := some 0, params := some po }]⟩ =
      .ok [QOp.rot1 "rx" 0 0] ∧
    _build_braket_circuit ⟨1, [{ gate := "rx", target := some 0, params := some po }]⟩ =
      .ok { ops := [BOp.rot1 "rx" 0 0] } ∧
    _build_braket_circuit_rigetti
        ⟨1, [{ gate := "rx", target := some 0, params := some po }]⟩ =
      .ok { ops := [BOp.rot1 "rx" 0 0] } ∧
    _build_pennylane_circuit ⟨1, [{ gate := "rx", target := some 0, params := some po }]⟩ =
      .ok [POp.rot1 "RX" 0 0] ∧
    _build_cirq_circuit ⟨1, [{ gate := "rx", target := some 0, params := some po }]⟩ =
      .error "KeyError: theta" ∧
    _build_qiskit_circuit_quantinuum
        ⟨1, [{ gate := "rx", target := some 0, params := some po }]⟩ =
      .error "KeyError: theta" := by
  have hp0 : pget (some po) "theta" = 0 := by simp [pget, h]
  have ecg : cirqGate 1 { gate := "rx", target := some 0, params := some po } =
      .error "KeyError: theta" := by
    rw [cirqGate_rx_shape po, h]
    rfl
  have eqg : quantinuumStep 1 { gate := "rx", target := some 0, params := some po } =
      .error "KeyError: theta" := by
    rw [quantinuumStep_rx_shape po, h]
    rfl
  refine ⟨?_, ?_, ?_, ?_, ?_, ?_, ?_⟩
  · exact hp0 ▸
      (rfl : _build_qiskit_circuit_aer
        ⟨1, [{ gate := "rx", target := some 0, params := some po }]⟩ =
        .ok ([QOp.rot1 "rx" (pget (some po) "theta") 0], false))
  · exact hp0 ▸
      (rfl : ibmBuildCircuit ⟨1, [{ gate := "rx", target := some 0, params := some po }]⟩ =
        .ok [QOp.rot1 "rx" (pget (some po) "theta") 0])
  · exact hp0 ▸
      (rfl : _build_braket_circuit
        ⟨1, [{ gate := "rx", target := some 0, params := some po }]⟩ =
        .ok { ops := [BOp.rot1 "rx" 0 (pget (some po) "theta")] })
  · exact hp0 ▸
      (rfl : _build_braket_circuit_rigetti
        ⟨1, [{ gate := "rx", target := some 0, params := some po }]⟩ =
        .ok { ops := [BOp.rot1 "rx" 0 (pget (some po) "theta")] })
  · exact hp0 ▸
      (rfl : _build_pennylane_circuit
        ⟨1, [{ gate := "rx", target := some 0, params := some po }]⟩ =
        .ok [POp.rot1 "RX" (pget (some po) "theta") 0])
  · unfold _build_cirq_circuit cirqGates
    rw [ecg]
    rfl
  · unfold _build_qiskit_circuit_quantinuum quantinuumGates
    rw [eqg]
    rfl

theorem c9_witness :
    List.lookup "theta" ([] : List (String × Rat)) = Option.none ∧
    _build_qiskit_circuit_aer ⟨1, [{ gate := "rx", target := some 0, params := some [] }]⟩ =
      .ok ([QOp.rot1 "rx" 0 0], false) ∧
    _build_cirq_circuit ⟨1, [{ gate := "rx", target := some 0, params := some [] }]⟩ =
      .error "KeyError: theta" :=
  ⟨rfl, (c9_amended_angle_defaults [] rfl).1, (c9_amended_angle_defaults [] rfl).2.2.2.2.2.1⟩

theorem heapGet_set_ne (l : List Creds) (i j : Nat) (x : Creds) (hne : i ≠ j) :
    heapGet (heapSet l i x) j = heapGet l j := by
  unfold heapGet heapSet
  simp [List.getD_eq_getElem?_getD, List.getElem?_set_ne hne]

/-- C10: resolving credentials returns a copy, so the run handler's in-place
additions of backend_name, shots and simulator_choice leave the stored
bundle untouched: the store still maps the provider to the same dict, its
content is unchanged, and resolving the same provider again yields the
bundle exactly as saved. -/
theorem c10_store_unchanged (st : AppState) (env : String → Option String)
    (pk bn sc : String) (shots : Nat) (a0 : Nat) (c : Creds)
    (hlk : List.lookup pk st.store = some a0)
    (ha : a0 < st.heap.length)
    (hc : heapGet st.heap a0 = c) :
    List.lookup pk (prepareRunCredentials st env pk bn shots sc).2.store = some a0 ∧
    heapGet (prepareRunCredentials st env pk bn shots sc).2.heap a0 = c ∧
    heapGet (getCredentialsAlloc (prepareRunCredentials st env pk bn shots sc).2 env pk).2.heap
      (getCredentialsAlloc (prepareRunCredentials st env pk bn shots sc).2 env pk).1 = c := by
  have halloc : getCredentialsAlloc st env pk =
      (st.heap.length, ⟨st.heap ++ [heapGet st.heap a0], st.store⟩) := by
    unfold getCredentialsAlloc
    rw [hlk]
  have hne : st.heap.length ≠ a0 := Nat.ne_of_gt ha
  have hstate : (prepareRunCredentials st env pk bn shots sc).2.store = st.store := by
    unfold prepareRunCredentials
    rw [halloc]
  have hget : heapGet (prepareRunCredentials st env pk bn shots sc).2.heap a0 = c := by
    unfold prepareRunCredentials
    rw [halloc]
    simp only
    rw [heapGet_set_ne _ _ _ _ hne, heapGet_set_ne _ _ _ _ hne, heapGet_set_ne _ _ _ _ hne]
    unfold heapGet
    rw [List.getD_append _ _ _ _ ha]
    exact hc
  refine ⟨?_, hget, ?_⟩
  · rw [hstate, hlk]
  · unfold getCredentialsAlloc
    rw [hstate, hlk]
    simp only
    unfold heapGet
    rw [List.getD_append_right _ _ _ _ (Nat.le_refl _)]
    simp only [Nat.sub_self]
    have : heapGet (prepareRunCredentials st env pk bn shots sc).2.heap a0 = c := hget
    unfold heapGet at this
    simpa using this

/-- A state with one saved credential bundle for the ibm family at heap
address 0. -/
def st0 : AppState := ⟨[[("IBMQ_TOKEN", PyVal.str "tok")]], [("ibm", 0)]⟩

theorem c10_witness :
    List.lookup "ibm" st0.store = some 0 ∧
    heapGet (prepareRunCredentials st0 env0 "ibm" "ibm_brisbane" 1024
      "aer_qasm_simulator").2.heap 0 = [("IBMQ_TOKEN", PyVal.str "tok")] :=
  ⟨rfl,
    (c10_store_unchanged st0 env0 "ibm" "ibm_brisbane" "aer_qasm_simulator" 1024 0
      [("IBMQ_TOKEN", PyVal.str "tok")] rfl (by decide) rfl).2.1⟩

example :
    _build_cirq_circuit ⟨2, [{ gate := "h", target := some 5 }]⟩ =
      .error "IndexError: list index out of range" := rfl

example :
    _build_cirq_circuit ⟨1, [{ gate := "rx", target := some 0, params := some [] }]⟩ =
      .error "KeyError: theta" := rfl
